import Mathlib

/-!
Verification of the anonas daycare web application.

The Python/Django source is shallowly embedded: database tables become
lists of records, request handlers become pure functions from the relevant
tables (plus the request data and the current time) to a result value and
the updated tables.  Python strings are lists of Unicode code points
(`PyStr`), so that `str.strip`, `str.lower`, `str.split` and the `in`
substring test can be modelled precisely on the ASCII fragment the
application uses.  Timestamps are naturals; `None` becomes `Option`.
-/

namespace Anonas

/-- Python strings, modelled as lists of Unicode code points. -/
abbrev PyStr := List Nat

/-- Turn a Lean string literal into its list of code points. -/
def strCodes (s : String) : PyStr := s.toList.map Char.toNat

/-- The ASCII whitespace code points removed by Python `str.strip()`
(space, tab, newline, carriage return, vertical tab, form feed). -/
def isPySpace (c : Nat) : Bool :=
  c = 32 || c = 9 || c = 10 || c = 13 || c = 11 || c = 12

/-- Python `str.strip()`: drop leading and trailing whitespace. -/
def pyStrip (s : PyStr) : PyStr :=
  ((s.dropWhile isPySpace).reverse.dropWhile isPySpace).reverse

/-- Python `str.lower()` on a single code point (ASCII fragment). -/
def pyLowerChar (c : Nat) : Nat :=
  if 65 ≤ c ∧ c ≤ 90 then c + 32 else c

/-- Python `str.lower()`. -/
def pyLower (s : PyStr) : PyStr := s.map pyLowerChar

/-- Does `s` begin with `k`?  (Helper for the substring test.) -/
def pyStarts : PyStr → PyStr → Bool
  | [], _ => true
  | _ :: _, [] => false
  | a :: k, b :: s => a = b && pyStarts k s

/-- Python substring test `k in s`. -/
def pyInStr (k : PyStr) : PyStr → Bool
  | [] => k.isEmpty
  | c :: t => pyStarts k (c :: t) || pyInStr k t

/-- Fresh primary key for an autoincrement column holding `ids`. -/
def newId (ids : List Nat) : Nat := ids.foldr max 0 + 1

/-- Insert `x` into a list sorted by strictly descending-or-equal `key`,
before the first element whose key is strictly smaller. -/
def insertDesc {α : Type} (key : α → Nat) (x : α) : List α → List α
  | [] => [x]
  | y :: l => if key y < key x then x :: y :: l else y :: insertDesc key x l

/-- Sort a list by descending `key` (models a Django descending order_by;
the relative order of ties is unspecified in the source, the model fixes
one). -/
def sortByDesc {α : Type} (key : α → Nat) : List α → List α
  | [] => []
  | x :: l => insertDesc key x (sortByDesc key l)

/-! ### information/models.py: BotMessage and the chatbot handler -/

/-- A row of the BotMessage table (information/models.py).  Fields not
consulted by any handler under verification (buttons, timestamps) are
omitted; `id` is the primary key. -/
structure BotMessage where
  id : Nat
  category : PyStr
  keywords : PyStr
  response_text : PyStr
  priority : Nat
  usage_count : Nat
  is_active : Bool
deriving DecidableEq

/-- `BotMessage.get_keywords_list`: split the comma-separated keyword
field and strip-and-lowercase each piece (code point 44 is the comma). -/
def BotMessage.get_keywords_list (m : BotMessage) : List PyStr :=
  (m.keywords.splitOn 44).map fun k => pyLower (pyStrip k)

/-- Does some keyword of `m` occur as a substring of `query`?  This is the
match test of the loop body in `chatbot_query`. -/
def matchesQuery (m : BotMessage) (query : PyStr) : Bool :=
  m.get_keywords_list.any fun k => pyInStr k query

/-- The normalisation the handler applies to the raw POST field:
`request.POST.get(query_key, empty).strip().lower()`. -/
def normalizeQuery (q : PyStr) : PyStr := pyLower (pyStrip q)

/-- A JSON response of an AJAX endpoint: success payload or an error
message with its HTTP status code. -/
inductive BotJson where
  | ok (response : PyStr)
  | jsonError (msg : PyStr) (status : Nat)
deriving DecidableEq

/-- The fallback response of `chatbot_query` (code point 39 is the
apostrophe). -/
def defaultBotResponse : PyStr :=
  strCodes (r"I") ++ [39] ++ strCodes (r"m sorry, I don") ++ [39] ++
    strCodes (r"t understand. Please try rephrasing your question or contact support.")

/-- The save of `bot_msg.usage_count += 1`: bump the counter of the row
with primary key `mid`, leaving every other row alone. -/
def incUsage (mid : Nat) (msgs : List BotMessage) : List BotMessage :=
  msgs.map fun x =>
    if x.id = mid then { x with usage_count := x.usage_count + 1 } else x

/-- `chatbot_query` (information/views.py, POST branch): normalise the
query, reject it when empty, otherwise scan the active messages in
descending priority order and answer with the first whose keyword matches,
bumping its usage counter; fall back to a fixed string.  Returns the JSON
response together with the updated BotMessage table. -/
def chatbot_query (q : PyStr) (msgs : List BotMessage) :
    BotJson × List BotMessage :=
  let query := normalizeQuery q
  if query.isEmpty then
    (BotJson.jsonError (strCodes (r"Query cannot be empty")) 400, msgs)
  else
    let bot_messages := sortByDesc BotMessage.priority (msgs.filter fun m => m.is_active)
    match bot_messages.find? (fun m => matchesQuery m query) with
    | some m => (BotJson.ok m.response_text, incUsage m.id msgs)
    | none => (BotJson.ok defaultBotResponse, msgs)

/-! ### information/models.py: chat rooms, chat messages, notifications -/

/-- A row of the ChatRoom table.  `parent` and `teacher` hold the foreign
keys of the two participants; `last_message_at` is nullable. -/
structure ChatRoom where
  id : Nat
  parent : Nat
  teacher : Nat
  subject : PyStr
  is_active : Bool
  is_archived : Bool
  last_message_at : Option Nat
deriving DecidableEq

/-- A row of the ChatMessage table.  `sender` is a User foreign key,
`created_at` the auto-add timestamp. -/
structure ChatMessage where
  id : Nat
  chat_room : Nat
  sender : Nat
  message_type : PyStr
  content : PyStr
  is_read : Bool
  read_at : Option Nat
  is_edited : Bool
  edited_at : Option Nat
  created_at : Nat
deriving DecidableEq

/-- `ChatMessage.mark_as_read` at wall-clock time `now`: stamp the read
flag and time only when the message is still unread. -/
def ChatMessage.mark_as_read (m : ChatMessage) (now : Nat) : ChatMessage :=
  if m.is_read then m
  else { m with is_read := true, read_at := some now }

/-- A row of the Notification table. -/
structure Notification where
  id : Nat
  recipient : Nat
  notification_type : PyStr
  title : PyStr
  message : PyStr
  link_url : PyStr
  is_read : Bool
  read_at : Option Nat
deriving DecidableEq

/-- `Notification.mark_as_read` at time `now`: stamp flag and time only
when still unread. -/
def Notification.mark_as_read (n : Notification) (now : Nat) : Notification :=
  if n.is_read then n
  else { n with is_read := true, read_at := some now }

/-! ### information/views.py: chat and notification handlers -/

/-- The authenticated identity of a request: the User primary key plus the
role-specific profile (`parent_profile` or `teacher_profile` primary key),
or neither for an account that is not a parent and not a teacher. -/
inductive UserRole where
  | parent (pid : Nat)
  | teacher (tid : Nat)
  | other
deriving DecidableEq

/-- A logged-in user as the chat handlers see it. -/
structure PortalUser where
  id : Nat
  role : UserRole
deriving DecidableEq

/-- `start_chat` (parent-only view): `get_or_create` the room of the
(parent, teacher) pair, with the model defaults for the remaining columns,
then redirect to the room.  Returns the id of the room redirected to and
the updated ChatRoom table. -/
def start_chat (pid tid : Nat) (rooms : List ChatRoom) :
    Nat × List ChatRoom :=
  match rooms.find? (fun r => r.parent = pid && r.teacher = tid) with
  | some room => (room.id, rooms)
  | none =>
      let rid := newId (rooms.map ChatRoom.id)
      (rid, rooms ++ [{ id := rid, parent := pid, teacher := tid,
                        subject := [], is_active := true, is_archived := false,
                        last_message_at := none }])

/-- Outcome of `send_message`: the success JSON payload, an error JSON
with status, or the Http404 raised by `get_object_or_404`. -/
inductive SendResult where
  | ok (message_id : Nat) (content : PyStr) (created_at : Nat)
  | jsonError (msg : PyStr) (status : Nat)
  | notFound
deriving DecidableEq

/-- The persistent chat state touched by `send_message`. -/
structure ChatDb where
  rooms : List ChatRoom
  messages : List ChatMessage
deriving DecidableEq

/-- The tail of `send_message` once the room is resolved: insert the new
text message (autoincrement id, auto-add `created_at := now`) and stamp
the room row with `last_message_at := now`. -/
def persistMessage (user : PortalUser) (room : ChatRoom) (content : PyStr)
    (now : Nat) (db : ChatDb) : SendResult × ChatDb :=
  let mid := newId (db.messages.map ChatMessage.id)
  let msg : ChatMessage :=
    { id := mid, chat_room := room.id, sender := user.id,
      message_type := strCodes (r"text"), content := content,
      is_read := false, read_at := none, is_edited := false,
      edited_at := none, created_at := now }
  let rooms := db.rooms.map fun r =>
    if r.id = room.id then { r with last_message_at := some now } else r
  (SendResult.ok mid content now,
   { rooms := rooms, messages := db.messages ++ [msg] })

/-- `send_message` (information/views.py, POST branch): strip the content
and reject it when empty with a 400; resolve the room restricted to the
requesting parent or teacher (Http404 when absent); reject any other role
with a 403; otherwise persist the message and update the room. -/
def send_message (user : PortalUser) (room_id : Nat) (rawContent : PyStr)
    (now : Nat) (db : ChatDb) : SendResult × ChatDb :=
  let content := pyStrip rawContent
  if content.isEmpty then
    (SendResult.jsonError (strCodes (r"Message cannot be empty")) 400, db)
  else
    match user.role with
    | UserRole.parent pid =>
        match db.rooms.find? (fun r => r.id = room_id && r.parent = pid) with
        | none => (SendResult.notFound, db)
        | some room => persistMessage user room content now db
    | UserRole.teacher tid =>
        match db.rooms.find? (fun r => r.id = room_id && r.teacher = tid) with
        | none => (SendResult.notFound, db)
        | some room => persistMessage user room content now db
    | UserRole.other =>
        (SendResult.jsonError (strCodes (r"Unauthorized")) 403, db)

/-- `mark_notification_read`: resolve the notification restricted to the
requesting recipient (`none` models the Http404), then save the row
updated by `Notification.mark_as_read`. -/
def mark_notification_read (uid nid now : Nat) (db : List Notification) :
    Option (List Notification) :=
  match db.find? (fun n => n.id = nid && n.recipient = uid) with
  | none => none
  | some n => some (db.map fun x => if x.id = n.id then x.mark_as_read now else x)

/-- `mark_all_notifications_read`: the queryset
`filter(recipient, is_read=False).update(is_read=True)` — a bulk column
update that touches only `is_read`. -/
def mark_all_notifications_read (uid : Nat) (db : List Notification) :
    List Notification :=
  db.map fun n =>
    if n.recipient = uid && n.is_read = false then { n with is_read := true } else n

/-! ### users/monitoring data: children, classes, attendance -/

/-- A row of the Child table together with its many-to-many guardian set
(the Parent primary keys related to it). -/
structure Child where
  id : Nat
  first_name : PyStr
  parents : List Nat
deriving DecidableEq

/-- A row of the Class table (monitoring).  `teacher` is the owning
Teacher foreign key. -/
structure SchoolClass where
  id : Nat
  teacher : Nat
deriving DecidableEq

/-- A row of the Enrollment table: the (Class, Child) link. -/
structure Enrollment where
  class_id : Nat
  student : Nat
deriving DecidableEq

/-- A row of the FinalGrade table (the fields the student views touch). -/
structure FinalGrade where
  id : Nat
  student : Nat
  class_id : Nat
  quarter : Nat
deriving DecidableEq

/-- A row of the Attendance table.  A calendar date is carried as its
proleptic ordinal (`dateOrd`, used for `timedelta` comparisons and
ordering) together with the `month` and `year` components the dashboard
filters on; `status` is `present`, `absent` or `late`. -/
structure AttendanceRecord where
  child : Nat
  dateOrd : Nat
  month : Nat
  year : Nat
  status : PyStr
deriving DecidableEq

/-- Round-half-to-even of a rational to an integer, the rounding of
Python `round`. -/
def roundHalfEven (x : ℚ) : ℤ :=
  let f := Int.floor x
  if x - f < 1/2 then f
  else if 1/2 < x - f then f + 1
  else if f % 2 = 0 then f else f + 1

/-- Python `round(x, 1)`. -/
def pyRound1 (x : ℚ) : ℚ := (roundHalfEven (x * 10) : ℚ) / 10

/-- The attendance aggregate the parent dashboard builds per child. -/
structure AttendanceStats where
  total_days : Nat
  present_days : Nat
  attendance_rate : ℚ
deriving DecidableEq

/-- The current-month attendance block of `parent_dashboard`
(users/views.py): filter the Attendance table to the child and the current
month and year, count the rows and the present rows, and round the
percentage (0 when there are no rows). -/
def parent_dashboard_stats (month year cid : Nat)
    (records : List AttendanceRecord) : AttendanceStats :=
  let current_month_attendance := records.filter fun r =>
    r.child = cid && r.month = month && r.year = year
  let total_days := current_month_attendance.length
  let present_days :=
    (current_month_attendance.filter fun r => r.status = strCodes (r"present")).length
  { total_days := total_days, present_days := present_days,
    attendance_rate :=
      pyRound1 (if 0 < total_days then (present_days : ℚ) / total_days * 100 else 0) }

/-- The attendance summary block of `child_detail` (users/views.py). -/
structure AttendanceSummary where
  total_days : Nat
  present_days : Nat
  absent_days : Nat
  late_days : Nat
  attendance_rate : ℚ
deriving DecidableEq

/-- The trailing-30-day attendance summary of `child_detail`: filter the
Attendance table to the child and to dates on or after `today - 30 days`,
count the rows per status, and round the percentage (0 when there are no
rows). -/
def child_detail_summary (todayOrd cid : Nat)
    (records : List AttendanceRecord) : AttendanceSummary :=
  let recent_attendance := records.filter fun r =>
    r.child = cid && todayOrd - 30 ≤ r.dateOrd
  let total_days := recent_attendance.length
  let present_days :=
    (recent_attendance.filter fun r => r.status = strCodes (r"present")).length
  let absent_days :=
    (recent_attendance.filter fun r => r.status = strCodes (r"absent")).length
  let late_days :=
    (recent_attendance.filter fun r => r.status = strCodes (r"late")).length
  { total_days := total_days, present_days := present_days,
    absent_days := absent_days, late_days := late_days,
    attendance_rate :=
      pyRound1 (if 0 < total_days then (present_days : ℚ) / total_days * 100 else 0) }

/-- Outcome of `child_detail`: the rendered page (carrying the child row
and the attendance summary shown on it) or the redirect to the dashboard
with the not-found error message, which carries no child data. -/
inductive ChildDetailResult where
  | page (child : Child) (summary : AttendanceSummary)
  | notFoundRedirect
deriving DecidableEq

/-- `child_detail` (users/views.py): resolve the child restricted to the
requesting parent being among its guardians
(`Child.objects.get(id=child_id, parents=parent)`); on `DoesNotExist`
redirect away with an error, otherwise render the page with the
trailing-30-day summary. -/
def child_detail (pid cid todayOrd : Nat) (children : List Child)
    (records : List AttendanceRecord) : ChildDetailResult :=
  match children.find? (fun c => c.id = cid && c.parents.contains pid) with
  | none => ChildDetailResult.notFoundRedirect
  | some child =>
      ChildDetailResult.page child (child_detail_summary todayOrd child.id records)

/-! ### monitoring/views.py: per-student pages for teachers -/

/-- Outcome of `student_attendance`: the rendered page (the student id and
the attendance rows listed) or the Http404. -/
inductive StudentPageResult where
  | page (student : Nat) (rows : List AttendanceRecord)
  | notFound
deriving DecidableEq

/-- `student_attendance` (monitoring/views.py): resolve the child by id
alone — the requesting teacher `tid` is never consulted — and list the 30
most recent attendance rows of that child. -/
def student_attendance (tid student_id : Nat) (children : List Child)
    (records : List AttendanceRecord) : StudentPageResult :=
  match children.find? (fun c => c.id = student_id) with
  | none => StudentPageResult.notFound
  | some student =>
      StudentPageResult.page student.id
        ((sortByDesc AttendanceRecord.dateOrd
          (records.filter fun r => r.child = student.id)).take 30)

/-- Outcome of `student_grades`: the rendered page (student id and grade
rows) or the Http404. -/
inductive StudentGradesResult where
  | page (student : Nat) (rows : List FinalGrade)
  | notFound
deriving DecidableEq

/-- `student_grades` (monitoring/views.py): resolve the child by id alone
— no ownership filter on the child — then list the grades of that child
restricted to classes of the requesting teacher. -/
def student_grades (tid student_id : Nat) (children : List Child)
    (classes : List SchoolClass) (grades : List FinalGrade) :
    StudentGradesResult :=
  match children.find? (fun c => c.id = student_id) with
  | none => StudentGradesResult.notFound
  | some student =>
      StudentGradesResult.page student.id
        (grades.filter fun g =>
          g.student = student.id &&
          classes.any fun cl => cl.id = g.class_id && cl.teacher = tid)

/-! ### Helper lemmas -/

theorem mem_insertDesc {α : Type} (key : α → Nat) (x a : α) (l : List α) :
    a ∈ insertDesc key x l ↔ a = x ∨ a ∈ l := by
  induction l with
  | nil => simp [insertDesc]
  | cons y l ih =>
      simp only [insertDesc]
      split
      · simp [List.mem_cons]
      · simp only [List.mem_cons, ih]
        tauto

theorem mem_sortByDesc {α : Type} (key : α → Nat) (a : α) (l : List α) :
    a ∈ sortByDesc key l ↔ a ∈ l := by
  induction l with
  | nil => simp [sortByDesc]
  | cons y l ih => simp [sortByDesc, mem_insertDesc, ih]

theorem sorted_insertDesc {α : Type} (key : α → Nat) (x : α) (l : List α)
    (h : l.Pairwise fun a b => key b ≤ key a) :
    (insertDesc key x l).Pairwise fun a b => key b ≤ key a := by
  induction l with
  | nil => simp [insertDesc]
  | cons y l ih =>
      rcases List.pairwise_cons.mp h with ⟨hy, hl⟩
      simp only [insertDesc]
      split
      · refine List.pairwise_cons.mpr ⟨?_, h⟩
        intro b hb
        rcases List.mem_cons.mp hb with rfl | hbl
        · omega
        · have := hy b hbl
          omega
      · refine List.pairwise_cons.mpr ⟨?_, ih hl⟩
        intro b hb
        rcases (mem_insertDesc key x b l).mp hb with rfl | hbl
        · omega
        · exact hy b hbl

theorem sorted_sortByDesc {α : Type} (key : α → Nat) (l : List α) :
    (sortByDesc key l).Pairwise fun a b => key b ≤ key a := by
  induction l with
  | nil => simp [sortByDesc]
  | cons y l ih => exact sorted_insertDesc key y (sortByDesc key l) ih

/-- In a list sorted by descending key, `find?` returns the element `m`
when `m` satisfies the predicate and every other satisfying element has a
strictly smaller key. -/
theorem find?_first_max {α : Type} (key : α → Nat) (p : α → Bool)
    (L : List α) (m : α)
    (hs : L.Pairwise fun a b => key b ≤ key a)
    (hm : m ∈ L) (hpm : p m = true)
    (hmax : ∀ x ∈ L, p x = true → x ≠ m → key x < key m) :
    L.find? p = some m := by
  induction L with
  | nil => cases hm
  | cons a L ih =>
      rcases List.pairwise_cons.mp hs with ⟨ha, hL⟩
      by_cases hpa : p a = true
      · rw [List.find?_cons_of_pos L hpa]
        by_contra hne
        have hne' : a ≠ m := fun h => hne (by rw [h])
        have hlt : key a < key m := hmax a (List.mem_cons_self a L) hpa hne'
        rcases List.mem_cons.mp hm with rfl | hmL
        · exact hne' rfl
        · have := ha m hmL
          omega
      · rw [List.find?_cons_of_neg L hpa]
        have hne : m ≠ a := fun h => hpa (h ▸ hpm)
        have hmL : m ∈ L := by
          rcases List.mem_cons.mp hm with rfl | hmL
          · exact absurd rfl hne
          · exact hmL
        exact ih hL hmL fun x hx hpx hxm => hmax x (List.mem_cons_of_mem a hx) hpx hxm

/-- `find?` returns `x` when `x` is the unique element of `l` satisfying
the predicate. -/
theorem find?_unique {α : Type} (p : α → Bool) (l : List α) (x : α)
    (hx : x ∈ l) (hpx : p x = true)
    (huniq : ∀ y ∈ l, p y = true → y = x) :
    l.find? p = some x := by
  induction l with
  | nil => cases hx
  | cons a l ih =>
      by_cases hpa : p a = true
      · rw [List.find?_cons_of_pos l hpa, huniq a (List.mem_cons_self a l) hpa]
      · rw [List.find?_cons_of_neg l hpa]
        have hne : x ≠ a := fun h => hpa (h ▸ hpx)
        have hxl : x ∈ l := by
          rcases List.mem_cons.mp hx with rfl | hxl
          · exact absurd rfl hne
          · exact hxl
        exact ih hxl fun y hy hpy => huniq y (List.mem_cons_of_mem a hy) hpy

theorem find?_append_none {α : Type} (p : α → Bool) (l₁ l₂ : List α)
    (h : l₁.find? p = none) : (l₁ ++ l₂).find? p = l₂.find? p := by
  induction l₁ with
  | nil => simp
  | cons a l ih =>
      by_cases hpa : p a = true
      · rw [List.find?_cons_of_pos l hpa] at h
        cases h
      · rw [List.find?_cons_of_neg l hpa] at h
        rw [List.cons_append, List.find?_cons_of_neg _ hpa]
        exact ih h

theorem zip_map_self {α β : Type} (g : α → β) (l : List α) :
    l.zip (l.map g) = l.map fun x => (x, g x) := by
  induction l with
  | nil => rfl
  | cons a l ih => simp [ih]

/-- Row-level reading of a keyed bulk update: mapping
`if key x = key t then f x else x` over a table whose keys identify `t`
among its rows changes exactly the row equal to `t` and no other. -/
theorem keyed_update_frame {α : Type} (key : α → Nat) (f : α → α)
    (l : List α) (t : α)
    (hinj : ∀ x ∈ l, key x = key t → x = t) :
    ∀ p ∈ l.zip (l.map fun x => if key x = key t then f x else x),
      (p.1 = t → p.2 = f t) ∧ (p.1 ≠ t → p.2 = p.1) := by
  rw [zip_map_self]
  intro p hp
  rcases List.mem_map.mp hp with ⟨x, hx, rfl⟩
  constructor
  · intro h1
    have hxt : x = t := h1
    subst hxt
    simp
  · intro hne
    have hkey : ¬ key x = key t := fun h => hne (hinj x hx h)
    simp [hkey]

/-- The scan of `chatbot_query` lands on `m` when `m` is active, matches
the normalised query, and strictly out-prioritises every other active
matching message. -/
theorem chatbot_scan_finds_max (msgs : List BotMessage) (q : PyStr)
    (m : BotMessage)
    (hm : m ∈ msgs) (hact : m.is_active = true)
    (hmatch : matchesQuery m (normalizeQuery q) = true)
    (hmax : ∀ x ∈ msgs, x.is_active = true →
      matchesQuery x (normalizeQuery q) = true → x ≠ m →
      x.priority < m.priority) :
    (sortByDesc BotMessage.priority (msgs.filter fun x => x.is_active)).find?
      (fun x => matchesQuery x (normalizeQuery q)) = some m := by
  apply find?_first_max BotMessage.priority _ _ m
  · exact sorted_sortByDesc BotMessage.priority _
  · exact (mem_sortByDesc _ m _).mpr (List.mem_filter.mpr ⟨hm, hact⟩)
  · exact hmatch
  · intro x hx hpx hxm
    rcases List.mem_filter.mp ((mem_sortByDesc _ x _).mp hx) with ⟨hxmem, hxact⟩
    exact hmax x hxmem hxact hpx hxm

/-- With a non-empty normalised query, `chatbot_query` reduces to the
scan. -/
theorem chatbot_query_eq (q : PyStr) (msgs : List BotMessage)
    (hq : normalizeQuery q ≠ []) :
    chatbot_query q msgs =
      match (sortByDesc BotMessage.priority (msgs.filter fun x => x.is_active)).find?
          (fun x => matchesQuery x (normalizeQuery q)) with
      | some m => (BotJson.ok m.response_text, incUsage m.id msgs)
      | none => (BotJson.ok defaultBotResponse, msgs) := by
  unfold chatbot_query
  rw [if_neg fun h => hq (List.isEmpty_iff.mp h)]

/-- C1: for every BotMessage table and every query whose normalised form
is non-empty, if the active message `m` matches the query and every other
active matching message has strictly lower priority, then `chatbot_query`
answers with the response text of `m`: the scan runs over active messages
in descending priority order and stops at the first match, so lower
priority matches are ignored. -/
theorem chatbot_query_returns_highest_priority_match
    (msgs : List BotMessage) (q : PyStr) (m : BotMessage)
    (hq : normalizeQuery q ≠ [])
    (hm : m ∈ msgs) (hact : m.is_active = true)
    (hmatch : matchesQuery m (normalizeQuery q) = true)
    (hmax : ∀ x ∈ msgs, x.is_active = true →
      matchesQuery x (normalizeQuery q) = true → x ≠ m →
      x.priority < m.priority) :
    (chatbot_query q msgs).1 = BotJson.ok m.response_text := by
  rw [chatbot_query_eq q msgs hq, chatbot_scan_finds_max msgs q m hm hact hmatch hmax]

/-- Concrete input for the C1 witness: a high-priority greeting message
that does not match, and two grade messages of priorities 5 and 3 that
both match. -/
def c1msgs : List BotMessage :=
  [{ id := 1, category := strCodes (r"greeting"), keywords := strCodes (r"hello,hi"),
     response_text := strCodes (r"Hello and welcome"), priority := 10,
     usage_count := 4, is_active := true },
   { id := 2, category := strCodes (r"grades"), keywords := strCodes (r"grade, grades"),
     response_text := strCodes (r"Grades are posted quarterly"), priority := 5,
     usage_count := 0, is_active := true },
   { id := 3, category := strCodes (r"grades"), keywords := strCodes (r"grade"),
     response_text := strCodes (r"Old grade answer"), priority := 3,
     usage_count := 7, is_active := true }]

/-- The query of the C1 and C8 witnesses. -/
def c1query : PyStr := strCodes (r"  What is my GRADE today")

/-- Witness for C1: on the concrete table, the priority 5 grade message
wins over the priority 3 one, and the priority 10 greeting does not
match. -/
theorem chatbot_query_returns_highest_priority_match_witness :
    normalizeQuery c1query ≠ [] ∧
    (chatbot_query c1query c1msgs).1 =
      BotJson.ok (strCodes (r"Grades are posted quarterly")) :=
  ⟨by decide,
   chatbot_query_returns_highest_priority_match c1msgs c1query
     { id := 2, category := strCodes (r"grades"), keywords := strCodes (r"grade, grades"),
       response_text := strCodes (r"Grades are posted quarterly"), priority := 5,
       usage_count := 0, is_active := true }
     (by decide) (by decide) (by decide) (by decide) (by decide)⟩

/-- C8: `chatbot_query` with a non-empty normalised query over a table
with distinct primary keys: when the active message `m` is the scan
winner (it matches and out-prioritises all other active matches), the
updated table bumps the usage counter of exactly the row `m`, leaving
every field of every other row unchanged; when no active message matches,
the table is returned unchanged. -/
theorem chatbot_query_usage_frame (msgs : List BotMessage) (q : PyStr)
    (hq : normalizeQuery q ≠ [])
    (hnd : (msgs.map BotMessage.id).Nodup) :
    (∀ m, m ∈ msgs → m.is_active = true →
      matchesQuery m (normalizeQuery q) = true →
      (∀ x ∈ msgs, x.is_active = true →
        matchesQuery x (normalizeQuery q) = true → x ≠ m →
        x.priority < m.priority) →
      ∀ p ∈ msgs.zip (chatbot_query q msgs).2,
        (p.1 = m → p.2 = { m with usage_count := m.usage_count + 1 }) ∧
        (p.1 ≠ m → p.2 = p.1)) ∧
    ((∀ x ∈ msgs, x.is_active = true →
        matchesQuery x (normalizeQuery q) = false) →
      (chatbot_query q msgs).2 = msgs) := by
  constructor
  · intro m hm hact hmatch hmax
    have hfind := chatbot_scan_finds_max msgs q m hm hact hmatch hmax
    rw [chatbot_query_eq q msgs hq, hfind]
    exact keyed_update_frame BotMessage.id _ msgs m
      fun x hx hkey => List.inj_on_of_nodup_map hnd hx hm hkey
  · intro hnone
    have hfind : (sortByDesc BotMessage.priority
        (msgs.filter fun x => x.is_active)).find?
        (fun x => matchesQuery x (normalizeQuery q)) = none := by
      rw [List.find?_eq_none]
      intro x hx
      rcases List.mem_filter.mp ((mem_sortByDesc _ x _).mp hx) with ⟨hxmem, hxact⟩
      simp [hnone x hxmem hxact]
    rw [chatbot_query_eq q msgs hq, hfind]

/-- Witness for C8: on the concrete table of the C1 witness, the
priority 5 row has its counter bumped from 0 to 1 and the rows of ids 1
and 3 keep all their fields. -/
theorem chatbot_query_usage_frame_witness :
    (c1msgs.map BotMessage.id).Nodup ∧
    (∀ p ∈ c1msgs.zip (chatbot_query c1query c1msgs).2,
      (p.1 = { id := 2, category := strCodes (r"grades"),
               keywords := strCodes (r"grade, grades"),
               response_text := strCodes (r"Grades are posted quarterly"),
               priority := 5, usage_count := 0, is_active := true } →
        p.2 = { id := 2, category := strCodes (r"grades"),
                keywords := strCodes (r"grade, grades"),
                response_text := strCodes (r"Grades are posted quarterly"),
                priority := 5, usage_count := 1, is_active := true }) ∧
      (p.1 ≠ { id := 2, category := strCodes (r"grades"),
               keywords := strCodes (r"grade, grades"),
               response_text := strCodes (r"Grades are posted quarterly"),
               priority := 5, usage_count := 0, is_active := true } →
        p.2 = p.1)) :=
  ⟨by decide,
   (chatbot_query_usage_frame c1msgs c1query (by decide) (by decide)).1
     { id := 2, category := strCodes (r"grades"), keywords := strCodes (r"grade, grades"),
       response_text := strCodes (r"Grades are posted quarterly"), priority := 5,
       usage_count := 0, is_active := true }
     (by decide) (by decide) (by decide) (by decide)⟩

/-- When the sender is a participant of the room (its parent or its
teacher) and the stripped content is non-empty, `send_message` reaches
`persistMessage` on that room. -/
theorem send_message_participant_eq (user : PortalUser) (room_id : Nat)
    (raw : PyStr) (now : Nat) (db : ChatDb) (room : ChatRoom)
    (hnd : (db.rooms.map ChatRoom.id).Nodup)
    (hmem : room ∈ db.rooms) (hid : room.id = room_id)
    (hstrip : pyStrip raw ≠ [])
    (hrole : user.role = UserRole.parent room.parent ∨
      user.role = UserRole.teacher room.teacher) :
    send_message user room_id raw now db =
      persistMessage user room (pyStrip raw) now db := by
  unfold send_message
  rw [if_neg fun h => hstrip (List.isEmpty_iff.mp h)]
  rcases hrole with hrole | hrole
  · rw [hrole]
    have hfind : db.rooms.find?
        (fun r => r.id = room_id && r.parent = room.parent) = some room := by
      apply find?_unique _ _ room hmem (by simp [hid])
      intro y hy hpy
      simp only [Bool.and_eq_true, decide_eq_true_eq] at hpy
      exact List.inj_on_of_nodup_map hnd hy hmem (by rw [hpy.1, hid])
    simp only [hfind]
  · rw [hrole]
    have hfind : db.rooms.find?
        (fun r => r.id = room_id && r.teacher = room.teacher) = some room := by
      apply find?_unique _ _ room hmem (by simp [hid])
      intro y hy hpy
      simp only [Bool.and_eq_true, decide_eq_true_eq] at hpy
      exact List.inj_on_of_nodup_map hnd hy hmem (by rw [hpy.1, hid])
    simp only [hfind]

/-- C3: `send_message` rejects content that strips to the empty string
with a 400 error JSON, leaving the message table and the room table
(including `last_message_at`) untouched; content with non-empty stripped
form sent by a participant appends exactly one ChatMessage row. -/
theorem send_message_empty_rejected_nonempty_persisted
    (user : PortalUser) (room_id : Nat) (raw : PyStr) (now : Nat)
    (db : ChatDb) (room : ChatRoom) :
    (pyStrip raw = [] →
      send_message user room_id raw now db =
        (SendResult.jsonError (strCodes (r"Message cannot be empty")) 400, db)) ∧
    (pyStrip raw ≠ [] →
      (db.rooms.map ChatRoom.id).Nodup →
      room ∈ db.rooms → room.id = room_id →
      (user.role = UserRole.parent room.parent ∨
        user.role = UserRole.teacher room.teacher) →
      ∃ msg, (send_message user room_id raw now db).2.messages =
        db.messages ++ [msg]) := by
  constructor
  · intro hempty
    unfold send_message
    rw [if_pos (List.isEmpty_iff.mpr hempty)]
  · intro hstrip hnd hmem hid hrole
    rw [send_message_participant_eq user room_id raw now db room hnd hmem hid hstrip hrole]
    exact ⟨_, rfl⟩

/-- Concrete chat state for the C3 and C9 witnesses: one room between
parent 7 and teacher 3 with one old message. -/
def c3db : ChatDb :=
  { rooms := [{ id := 1, parent := 7, teacher := 3, subject := [],
                is_active := true, is_archived := false, last_message_at := some 50 }],
    messages := [{ id := 4, chat_room := 1, sender := 20,
                   message_type := strCodes (r"text"), content := strCodes (r"hi"),
                   is_read := true, read_at := some 51, is_edited := false,
                   edited_at := none, created_at := 50 }] }

/-- The parent participant of the witness room. -/
def c3parentUser : PortalUser := { id := 20, role := UserRole.parent 7 }

/-- Witness for C3: whitespace-only content is rejected with the db
untouched, and a real message from the room parent appends one row. -/
theorem send_message_empty_rejected_nonempty_persisted_witness :
    (pyStrip (strCodes (r"   ")) = [] ∧
      send_message c3parentUser 1 (strCodes (r"   ")) 60 c3db =
        (SendResult.jsonError (strCodes (r"Message cannot be empty")) 400, c3db)) ∧
    (pyStrip (strCodes (r" hello teacher ")) ≠ [] ∧
      ∃ msg, (send_message c3parentUser 1 (strCodes (r" hello teacher ")) 60 c3db).2.messages =
        c3db.messages ++ [msg]) :=
  ⟨⟨by decide,
    (send_message_empty_rejected_nonempty_persisted c3parentUser 1
      (strCodes (r"   ")) 60 c3db
      { id := 1, parent := 7, teacher := 3, subject := [], is_active := true,
        is_archived := false, last_message_at := some 50 }).1 (by decide)⟩,
   ⟨by decide,
    (send_message_empty_rejected_nonempty_persisted c3parentUser 1
      (strCodes (r" hello teacher ")) 60 c3db
      { id := 1, parent := 7, teacher := 3, subject := [], is_active := true,
        is_archived := false, last_message_at := some 50 }).2
      (by decide) (by decide) (by decide) (by decide) (by decide)⟩⟩

/-- C9: a participant (the room parent or the room teacher) sending
content with non-empty stripped form gets the success JSON carrying the
new message id, the stored content and the send time; exactly one
ChatMessage row is appended, carrying that content, the sender identity
and the send time; the room row gets `last_message_at := now` with all
its other fields kept, and every other room row is unchanged.  A sender
whose role is neither parent nor teacher gets the 403 error JSON and the
state is unchanged. -/
theorem send_message_participant_success_and_forbidden
    (user : PortalUser) (room_id : Nat) (raw : PyStr) (now : Nat)
    (db : ChatDb) (room : ChatRoom)
    (hstrip : pyStrip raw ≠ []) :
    ((db.rooms.map ChatRoom.id).Nodup → room ∈ db.rooms → room.id = room_id →
      (user.role = UserRole.parent room.parent ∨
        user.role = UserRole.teacher room.teacher) →
      (send_message user room_id raw now db).1 =
        SendResult.ok (newId (db.messages.map ChatMessage.id)) (pyStrip raw) now ∧
      (send_message user room_id raw now db).2.messages =
        db.messages ++
          [{ id := newId (db.messages.map ChatMessage.id), chat_room := room.id,
             sender := user.id, message_type := strCodes (r"text"),
             content := pyStrip raw, is_read := false, read_at := none,
             is_edited := false, edited_at := none, created_at := now }] ∧
      (∀ p ∈ db.rooms.zip (send_message user room_id raw now db).2.rooms,
        (p.1 = room → p.2 = { room with last_message_at := some now }) ∧
        (p.1 ≠ room → p.2 = p.1))) ∧
    (user.role = UserRole.other →
      send_message user room_id raw now db =
        (SendResult.jsonError (strCodes (r"Unauthorized")) 403, db)) := by
  constructor
  · intro hnd hmem hid hrole
    rw [send_message_participant_eq user room_id raw now db room hnd hmem hid hstrip hrole]
    refine ⟨rfl, rfl, ?_⟩
    exact keyed_update_frame ChatRoom.id _ db.rooms room
      fun x hx hkey => List.inj_on_of_nodup_map hnd hx hmem hkey
  · intro hother
    unfold send_message
    rw [if_neg fun h => hstrip (List.isEmpty_iff.mp h), hother]

/-- Witness for C9: the room parent sends a message at time 60; the JSON
carries the fresh id 5, the room row is restamped, and the other fields
survive; an account with no profile gets the 403. -/
theorem send_message_participant_success_and_forbidden_witness :
    (pyStrip (strCodes (r" see you at noon ")) ≠ [] ∧
      ((send_message c3parentUser 1 (strCodes (r" see you at noon ")) 60 c3db).1 =
        SendResult.ok (newId (c3db.messages.map ChatMessage.id))
          (pyStrip (strCodes (r" see you at noon "))) 60 ∧
      (send_message c3parentUser 1 (strCodes (r" see you at noon ")) 60 c3db).2.messages =
        c3db.messages ++
          [{ id := newId (c3db.messages.map ChatMessage.id), chat_room := 1,
             sender := 20, message_type := strCodes (r"text"),
             content := pyStrip (strCodes (r" see you at noon ")), is_read := false,
             read_at := none, is_edited := false, edited_at := none,
             created_at := 60 }] ∧
      (∀ p ∈ c3db.rooms.zip
          (send_message c3parentUser 1 (strCodes (r" see you at noon ")) 60 c3db).2.rooms,
        (p.1 = { id := 1, parent := 7, teacher := 3, subject := [], is_active := true,
                 is_archived := false, last_message_at := some 50 } →
          p.2 = { id := 1, parent := 7, teacher := 3, subject := [], is_active := true,
                  is_archived := false, last_message_at := some 60 }) ∧
        (p.1 ≠ { id := 1, parent := 7, teacher := 3, subject := [], is_active := true,
                 is_archived := false, last_message_at := some 50 } →
          p.2 = p.1)))) ∧
    send_message { id := 99, role := UserRole.other } 1
        (strCodes (r" see you at noon ")) 60 c3db =
      (SendResult.jsonError (strCodes (r"Unauthorized")) 403, c3db) :=
  ⟨⟨by decide,
    (send_message_participant_success_and_forbidden c3parentUser 1
      (strCodes (r" see you at noon ")) 60 c3db
      { id := 1, parent := 7, teacher := 3, subject := [], is_active := true,
        is_archived := false, last_message_at := some 50 }
      (by decide)).1 (by decide) (by decide) (by decide) (by decide)⟩,
   (send_message_participant_success_and_forbidden
      { id := 99, role := UserRole.other } 1
      (strCodes (r" see you at noon ")) 60 c3db
      { id := 1, parent := 7, teacher := 3, subject := [], is_active := true,
        is_archived := false, last_message_at := some 50 }
      (by decide)).2 (by decide)⟩

/-- C5: `start_chat` preserves the invariant that no two rooms share a
(parent, teacher) pair, and calling it twice for the same pair returns
the same room id both times while the second call leaves the room table
exactly as the first call left it. -/
theorem start_chat_unique_per_pair (pid tid : Nat) (rooms : List ChatRoom) :
    ((rooms.Pairwise fun a b => ¬(a.parent = b.parent ∧ a.teacher = b.teacher)) →
      ((start_chat pid tid rooms).2).Pairwise fun a b =>
        ¬(a.parent = b.parent ∧ a.teacher = b.teacher)) ∧
    (start_chat pid tid (start_chat pid tid rooms).2).1 =
      (start_chat pid tid rooms).1 ∧
    (start_chat pid tid (start_chat pid tid rooms).2).2 =
      (start_chat pid tid rooms).2 := by
  cases hfind : rooms.find? (fun r => r.parent = pid && r.teacher = tid) with
  | some r =>
      have h1 : start_chat pid tid rooms = (r.id, rooms) := by
        unfold start_chat
        rw [hfind]
      rw [h1]
      exact ⟨fun h => h, by rw [h1], by rw [h1]⟩
  | none =>
      have hall := List.find?_eq_none.mp hfind
      have h1 : start_chat pid tid rooms =
          (newId (rooms.map ChatRoom.id),
           rooms ++ [{ id := newId (rooms.map ChatRoom.id), parent := pid,
                       teacher := tid, subject := [], is_active := true,
                       is_archived := false, last_message_at := none }]) := by
        unfold start_chat
        rw [hfind]
      have h2 : start_chat pid tid (start_chat pid tid rooms).2 =
          ((start_chat pid tid rooms).1, (start_chat pid tid rooms).2) := by
        rw [h1]
        unfold start_chat
        rw [find?_append_none _ _ _ hfind]
        simp
      refine ⟨?_, by rw [h2], by rw [h2]⟩
      intro hinv
      rw [h1]
      rw [List.pairwise_append]
      refine ⟨hinv, by simp, ?_⟩
      intro a ha b hb hab
      have hpa := hall a ha
      rcases List.mem_singleton.mp hb with rfl
      simp only [Bool.and_eq_true, decide_eq_true_eq, not_and] at hpa
      exact hpa (by simpa using hab.1) (by simpa using hab.2)

/-- Concrete room table for the C5 witness: an unrelated room of another
pair. -/
def c5rooms : List ChatRoom :=
  [{ id := 1, parent := 8, teacher := 3, subject := [], is_active := true,
     is_archived := false, last_message_at := none }]

/-- Witness for C5: starting a chat of a new pair keeps the one-room-per-
pair invariant, and repeating the call changes nothing and returns the
same id. -/
theorem start_chat_unique_per_pair_witness :
    (c5rooms.Pairwise fun a b => ¬(a.parent = b.parent ∧ a.teacher = b.teacher)) ∧
    (((start_chat 7 3 c5rooms).2).Pairwise fun a b =>
      ¬(a.parent = b.parent ∧ a.teacher = b.teacher)) ∧
    (start_chat 7 3 (start_chat 7 3 c5rooms).2).1 = (start_chat 7 3 c5rooms).1 ∧
    (start_chat 7 3 (start_chat 7 3 c5rooms).2).2 = (start_chat 7 3 c5rooms).2 :=
  ⟨by decide,
   (start_chat_unique_per_pair 7 3 c5rooms).1 (by decide),
   (start_chat_unique_per_pair 7 3 c5rooms).2.1,
   (start_chat_unique_per_pair 7 3 c5rooms).2.2⟩

/-- C6: `ChatMessage.mark_as_read` on an unread message stamps
`is_read := true` and `read_at` with the call time; a second call returns
the message exactly as the first call left it, so `read_at` keeps the
first stamp (the no-re-stamp policy). -/
theorem chat_message_mark_as_read_idempotent (m : ChatMessage) (t1 t2 : Nat)
    (h : m.is_read = false) :
    (m.mark_as_read t1).is_read = true ∧
    (m.mark_as_read t1).read_at = some t1 ∧
    (m.mark_as_read t1).mark_as_read t2 = m.mark_as_read t1 := by
  simp [ChatMessage.mark_as_read, h]

/-- Witness for C6 on a concrete unread message. -/
theorem chat_message_mark_as_read_idempotent_witness :
    ({ id := 4, chat_room := 1, sender := 20, message_type := strCodes (r"text"),
       content := strCodes (r"hi"), is_read := false, read_at := none,
       is_edited := false, edited_at := none, created_at := 50 : ChatMessage }).is_read
        = false ∧
    (({ id := 4, chat_room := 1, sender := 20, message_type := strCodes (r"text"),
        content := strCodes (r"hi"), is_read := false, read_at := none,
        is_edited := false, edited_at := none,
        created_at := 50 : ChatMessage }).mark_as_read 60).is_read = true ∧
    (({ id := 4, chat_room := 1, sender := 20, message_type := strCodes (r"text"),
        content := strCodes (r"hi"), is_read := false, read_at := none,
        is_edited := false, edited_at := none,
        created_at := 50 : ChatMessage }).mark_as_read 60).read_at = some 60 ∧
    ((({ id := 4, chat_room := 1, sender := 20, message_type := strCodes (r"text"),
         content := strCodes (r"hi"), is_read := false, read_at := none,
         is_edited := false, edited_at := none,
         created_at := 50 : ChatMessage }).mark_as_read 60).mark_as_read 75) =
      ({ id := 4, chat_room := 1, sender := 20, message_type := strCodes (r"text"),
         content := strCodes (r"hi"), is_read := false, read_at := none,
         is_edited := false, edited_at := none,
         created_at := 50 : ChatMessage }).mark_as_read 60 := by
  refine ⟨by decide, ?_⟩
  have h := chat_message_mark_as_read_idempotent
    { id := 4, chat_room := 1, sender := 20, message_type := strCodes (r"text"),
      content := strCodes (r"hi"), is_read := false, read_at := none,
      is_edited := false, edited_at := none, created_at := 50 } 60 75 (by decide)
  exact ⟨h.1, h.2.1, h.2.2⟩

/-- C4: `child_detail` renders the page iff the requesting parent is in
the guardian set of a child with the requested id: when no child row has
that id together with that guardian, the outcome is the not-found
redirect carrying no child data; when the child with that id (ids being
unique) lists the parent as guardian, the page for that child is
rendered. -/
theorem child_detail_guardian_gate (pid cid todayOrd : Nat)
    (children : List Child) (records : List AttendanceRecord) (c : Child) :
    ((¬ ∃ x ∈ children, x.id = cid ∧ pid ∈ x.parents) →
      child_detail pid cid todayOrd children records =
        ChildDetailResult.notFoundRedirect) ∧
    ((children.map Child.id).Nodup → c ∈ children → c.id = cid →
      pid ∈ c.parents →
      child_detail pid cid todayOrd children records =
        ChildDetailResult.page c (child_detail_summary todayOrd c.id records)) := by
  constructor
  · intro hno
    unfold child_detail
    have hfind : children.find? (fun x => x.id = cid && x.parents.contains pid)
        = none := by
      rw [List.find?_eq_none]
      intro x hx hpx
      simp only [Bool.and_eq_true, decide_eq_true_eq, List.contains, List.elem_eq_mem] at hpx
      exact hno ⟨x, hx, hpx.1, by simpa using hpx.2⟩
    rw [hfind]
  · intro hnd hc hcid hpid
    unfold child_detail
    have hfind : children.find? (fun x => x.id = cid && x.parents.contains pid)
        = some c := by
      apply find?_unique _ _ c hc
      · simp only [Bool.and_eq_true, decide_eq_true_eq, List.contains, List.elem_eq_mem]
        exact ⟨hcid, by simpa using hpid⟩
      · intro y hy hpy
        simp only [Bool.and_eq_true, decide_eq_true_eq] at hpy
        exact List.inj_on_of_nodup_map hnd hy hc (by rw [hpy.1, hcid])
    rw [hfind]

/-- Concrete child table for the C4 witness: child 5 with guardian 7. -/
def c4children : List Child :=
  [{ id := 5, first_name := strCodes (r"Ana"), parents := [7] }]

/-- Witness for C4: parent 9 is not a guardian of child 5, so the
request redirects away; guardian 7 gets the page. -/
theorem child_detail_guardian_gate_witness :
    (¬ ∃ x ∈ c4children, x.id = 5 ∧ 9 ∈ x.parents) ∧
    child_detail 9 5 1000 c4children [] = ChildDetailResult.notFoundRedirect ∧
    child_detail 7 5 1000 c4children [] =
      ChildDetailResult.page
        { id := 5, first_name := strCodes (r"Ana"), parents := [7] }
        (child_detail_summary 1000 5 []) :=
  ⟨by decide,
   (child_detail_guardian_gate 9 5 1000 c4children []
     { id := 5, first_name := strCodes (r"Ana"), parents := [7] }).1 (by decide),
   (child_detail_guardian_gate 7 5 1000 c4children []
     { id := 5, first_name := strCodes (r"Ana"), parents := [7] }).2
     (by decide) (by decide) (by decide) (by decide)⟩

theorem pyRound1_zero : pyRound1 0 = 0 := by
  have h : roundHalfEven 0 = 0 := by
    unfold roundHalfEven
    norm_num
  unfold pyRound1
  norm_num [h]

/-- C7: in both aggregation windows — the current calendar month on the
parent dashboard and the trailing 30 days on the child detail page — the
attendance rate equals `present_days / total_days * 100` rounded to one
decimal, and a window with no attendance rows yields the rate 0 rather
than a division error. -/
theorem attendance_rate_formula (month year todayOrd cid : Nat)
    (records : List AttendanceRecord) :
    ((parent_dashboard_stats month year cid records).total_days = 0 →
      (parent_dashboard_stats month year cid records).attendance_rate = 0) ∧
    (0 < (parent_dashboard_stats month year cid records).total_days →
      (parent_dashboard_stats month year cid records).attendance_rate =
        pyRound1 (((parent_dashboard_stats month year cid records).present_days : ℚ) /
          ((parent_dashboard_stats month year cid records).total_days : ℚ) * 100)) ∧
    ((child_detail_summary todayOrd cid records).total_days = 0 →
      (child_detail_summary todayOrd cid records).attendance_rate = 0) ∧
    (0 < (child_detail_summary todayOrd cid records).total_days →
      (child_detail_summary todayOrd cid records).attendance_rate =
        pyRound1 (((child_detail_summary todayOrd cid records).present_days : ℚ) /
          ((child_detail_summary todayOrd cid records).total_days : ℚ) * 100)) := by
  refine ⟨?_, ?_, ?_, ?_⟩
  · intro h0
    simp only [parent_dashboard_stats] at h0 ⊢
    rw [h0]
    norm_num [pyRound1_zero]
  · intro hpos
    unfold parent_dashboard_stats at hpos ⊢
    simp only [if_pos hpos]
  · intro h0
    simp only [child_detail_summary] at h0 ⊢
    rw [h0]
    norm_num [pyRound1_zero]
  · intro hpos
    unfold child_detail_summary at hpos ⊢
    simp only [if_pos hpos]

/-- Concrete attendance table for the C7 witness: three October 2026
rows for child 5, two of them present, and one row of another child. -/
def c7records : List AttendanceRecord :=
  [{ child := 5, dateOrd := 1001, month := 10, year := 2026, status := strCodes (r"present") },
   { child := 5, dateOrd := 1002, month := 10, year := 2026, status := strCodes (r"absent") },
   { child := 5, dateOrd := 1003, month := 10, year := 2026, status := strCodes (r"present") },
   { child := 6, dateOrd := 1003, month := 10, year := 2026, status := strCodes (r"late") }]

/-- Witness for C7: the empty window yields rate 0 on both pages, and
the three-row window of child 5 yields the rounded percentage of 2/3. -/
theorem attendance_rate_formula_witness :
    ((parent_dashboard_stats 11 2026 5 c7records).total_days = 0 ∧
      (parent_dashboard_stats 11 2026 5 c7records).attendance_rate = 0) ∧
    ((child_detail_summary 2000 5 c7records).total_days = 0 ∧
      (child_detail_summary 2000 5 c7records).attendance_rate = 0) ∧
    (0 < (parent_dashboard_stats 10 2026 5 c7records).total_days ∧
      (parent_dashboard_stats 10 2026 5 c7records).attendance_rate =
        pyRound1 (((parent_dashboard_stats 10 2026 5 c7records).present_days : ℚ) /
          ((parent_dashboard_stats 10 2026 5 c7records).total_days : ℚ) * 100)) :=
  ⟨⟨by decide, (attendance_rate_formula 11 2026 2000 5 c7records).1 (by decide)⟩,
   ⟨by decide, (attendance_rate_formula 11 2026 2000 5 c7records).2.2.1 (by decide)⟩,
   ⟨by decide, (attendance_rate_formula 10 2026 2000 5 c7records).2.1 (by decide)⟩⟩

/-- C10: the bulk `mark_all_notifications_read` flips `is_read` on
exactly the requesting user's unread notifications and never touches
`read_at` (a notification read this way keeps its old `read_at`, null
staying null), while every other notification row — other users' rows and
already-read rows — is entirely unchanged; by contrast the single
`mark_notification_read` on an unread notification of the user stamps
both `is_read := true` and `read_at := now` on that row and leaves every
other row unchanged. -/
theorem notification_read_marking (uid nid now : Nat)
    (db : List Notification) (n : Notification) :
    (∀ p ∈ db.zip (mark_all_notifications_read uid db),
      p.2.read_at = p.1.read_at ∧
      (p.1.recipient = uid → p.1.is_read = false →
        p.2 = { p.1 with is_read := true }) ∧
      (¬(p.1.recipient = uid ∧ p.1.is_read = false) → p.2 = p.1)) ∧
    ((db.map Notification.id).Nodup → n ∈ db → n.id = nid →
      n.recipient = uid → n.is_read = false →
      ∃ out, mark_notification_read uid nid now db = some out ∧
        ∀ p ∈ db.zip out,
          (p.1 = n → p.2 = { n with is_read := true, read_at := some now }) ∧
          (p.1 ≠ n → p.2 = p.1)) := by
  constructor
  · unfold mark_all_notifications_read
    rw [zip_map_self]
    intro p hp
    rcases List.mem_map.mp hp with ⟨x, hx, rfl⟩
    refine ⟨?_, ?_, ?_⟩
    · by_cases hcond : (x.recipient = uid && x.is_read = false) = true
      · rw [if_pos hcond]
      · rw [if_neg hcond]
    · intro hrec hunread
      have hrec' : x.recipient = uid := hrec
      have hunread' : x.is_read = false := hunread
      have hcond : (x.recipient = uid && x.is_read = false) = true := by
        simp [hrec', hunread']
      show (if (x.recipient = uid && x.is_read = false) = true
        then { x with is_read := true } else x) = { x with is_read := true }
      rw [if_pos hcond]
    · intro hnot
      have hcond : ¬(x.recipient = uid && x.is_read = false) = true := by
        simp only [Bool.and_eq_true, decide_eq_true_eq]
        intro hand
        exact hnot ⟨hand.1, by simpa using hand.2⟩
      show (if (x.recipient = uid && x.is_read = false) = true
        then { x with is_read := true } else x) = x
      rw [if_neg hcond]
  · intro hnd hn hnid hrec hunread
    unfold mark_notification_read
    have hfind : db.find? (fun x => x.id = nid && x.recipient = uid) = some n := by
      apply find?_unique _ _ n hn (by simp [hnid, hrec])
      intro y hy hpy
      simp only [Bool.and_eq_true, decide_eq_true_eq] at hpy
      exact List.inj_on_of_nodup_map hnd hy hn (by rw [hpy.1, hnid])
    rw [hfind]
    refine ⟨_, rfl, ?_⟩
    have hmark : n.mark_as_read now =
        { n with is_read := true, read_at := some now } := by
      unfold Notification.mark_as_read
      rw [if_neg (by simp [hunread])]
    intro p hp
    have := keyed_update_frame Notification.id (fun x => x.mark_as_read now) db n
      (fun x hx hkey => List.inj_on_of_nodup_map hnd hx hn hkey) p hp
    exact ⟨fun h1 => by rw [this.1 h1]; exact hmark, this.2⟩

/-- Concrete notification table for the C10 witness: an unread and a
read notification of user 7 and an unread one of user 8. -/
def c10db : List Notification :=
  [{ id := 1, recipient := 7, notification_type := strCodes (r"general"),
     title := strCodes (r"Welcome"), message := strCodes (r"Hello"),
     link_url := [], is_read := false, read_at := none },
   { id := 2, recipient := 7, notification_type := strCodes (r"new_event"),
     title := strCodes (r"Fair"), message := strCodes (r"School fair"),
     link_url := [], is_read := true, read_at := some 40 },
   { id := 3, recipient := 8, notification_type := strCodes (r"general"),
     title := strCodes (r"Reminder"), message := strCodes (r"Pay fees"),
     link_url := [], is_read := false, read_at := none }]

/-- Witness for C10: marking all of user 7 read flips only row 1 and
keeps its null `read_at`, and the single mark on row 1 stamps both
fields. -/
theorem notification_read_marking_witness :
    (∀ p ∈ c10db.zip (mark_all_notifications_read 7 c10db),
      p.2.read_at = p.1.read_at ∧
      (p.1.recipient = 7 → p.1.is_read = false →
        p.2 = { p.1 with is_read := true }) ∧
      (¬(p.1.recipient = 7 ∧ p.1.is_read = false) → p.2 = p.1)) ∧
    ∃ out, mark_notification_read 7 1 60 c10db = some out ∧
      ∀ p ∈ c10db.zip out,
        (p.1 = { id := 1, recipient := 7, notification_type := strCodes (r"general"),
                 title := strCodes (r"Welcome"), message := strCodes (r"Hello"),
                 link_url := [], is_read := false, read_at := none } →
          p.2 = { id := 1, recipient := 7, notification_type := strCodes (r"general"),
                  title := strCodes (r"Welcome"), message := strCodes (r"Hello"),
                  link_url := [], is_read := true, read_at := some 60 }) ∧
        (p.1 ≠ { id := 1, recipient := 7, notification_type := strCodes (r"general"),
                 title := strCodes (r"Welcome"), message := strCodes (r"Hello"),
                 link_url := [], is_read := false, read_at := none } →
          p.2 = p.1) :=
  ⟨(notification_read_marking 7 1 60 c10db
      { id := 1, recipient := 7, notification_type := strCodes (r"general"),
        title := strCodes (r"Welcome"), message := strCodes (r"Hello"),
        link_url := [], is_read := false, read_at := none }).1,
   (notification_read_marking 7 1 60 c10db
      { id := 1, recipient := 7, notification_type := strCodes (r"general"),
        title := strCodes (r"Welcome"), message := strCodes (r"Hello"),
        link_url := [], is_read := false, read_at := none }).2
     (by decide) (by decide) (by decide) (by decide) (by decide)⟩

/-- Child table of the C2 counterexample run: child 5 guarded by parent
7. -/
def c2children : List Child :=
  [{ id := 5, first_name := strCodes (r"Ana"), parents := [7] }]

/-- Class table of the C2 counterexample run: the one class, id 10, is
owned by teacher 1, not by teacher 2. -/
def c2classes : List SchoolClass := [{ id := 10, teacher := 1 }]

/-- Enrollment table of the C2 counterexample run: child 5 is enrolled
only in class 10. -/
def c2enrollments : List Enrollment := [{ class_id := 10, student := 5 }]

/-- Attendance table of the C2 counterexample run: one row of child 5. -/
def c2records : List AttendanceRecord :=
  [{ child := 5, dateOrd := 1000, month := 10, year := 2026,
     status := strCodes (r"present") }]

/-- Grade table of the C2 counterexample run: one grade of child 5 in
class 10. -/
def c2grades : List FinalGrade :=
  [{ id := 1, student := 5, class_id := 10, quarter := 1 }]

/-- C2 fails on the code: teacher 2 owns no class in which student 5 is
enrolled, yet `student_attendance` serves teacher 2 the full attendance
page of student 5 instead of a not-found outcome — the handler resolves
the child by id alone and never consults the requesting teacher — and
`student_grades` likewise serves the page (with the grade list filtered
to the teacher, hence empty) instead of a not-found outcome. -/
theorem student_pages_ignore_teacher_ownership :
    (¬ ∃ cl ∈ c2classes, cl.teacher = 2 ∧
      ∃ e ∈ c2enrollments, e.class_id = cl.id ∧ e.student = 5) ∧
    student_attendance 2 5 c2children c2records =
      StudentPageResult.page 5 c2records ∧
    student_grades 2 5 c2children c2classes c2grades =
      StudentGradesResult.page 5 [] := by
  refine ⟨by decide, by decide, by decide⟩

end Anonas
